import Mathlib

/-!
Verification of the optimus-proxy service (`render_app.py`): a shallow
embedding of its alias store, resolver, forwarder and admin endpoints,
together with theorems settling the specification's claims about them.

Python dictionaries (and the redis string/hash keyspaces) are modelled as
association lists over `String` keys, with first-match lookup and
position-preserving update, mirroring CPython dict semantics.
-/

set_option autoImplicit false

namespace OptimusProxy

variable {α : Type}

/-- First-match lookup in an association list (Python `d.get(k)` /
`k in d` combined). -/
def dictGet : List (String × α) → String → Option α
  | [], _ => none
  | (k', v) :: rest, k => if k' = k then some v else dictGet rest k

/-- Position-preserving insertion (Python `d[k] = v`): replaces the first
binding of `k` in place, else appends at the end. -/
def dictSet : List (String × α) → String → α → List (String × α)
  | [], k, v => [(k, v)]
  | (k', v') :: rest, k, v =>
      if k' = k then (k, v) :: rest else (k', v') :: dictSet rest k v

/-- Key removal (Python `d.pop(k, None)` / redis `DEL`): drops every
binding of `k` (dicts hold at most one). -/
def dictPop (m : List (String × α)) (k : String) : List (String × α) :=
  m.filter (fun p => p.1 ≠ k)

/-- Python `d.update(l)`: fold the bindings of `l` into `m`, last write
winning, positions of existing keys preserved. -/
def dictUpdate : List (String × α) → List (String × α) → List (String × α)
  | m, [] => m
  | m, (k, v) :: rest => dictUpdate (dictSet m k v) rest

/-- The keys of the dictionary are pairwise distinct (true of every real
Python dict and redis hash). -/
def dictNodup : List (String × α) → Bool
  | [] => true
  | (k, _) :: rest => (dictGet rest k).isNone && dictNodup rest

/-- Python `str.lower()` (the source only lowercases ASCII aliases). -/
def pyLower (s : String) : String :=
  String.mk (s.data.map Char.toLower)

/-- Python `str.strip()` restricted to the blank characters relevant to
header values. -/
def pyStrip (s : String) : String :=
  String.mk (((s.data.dropWhile (fun c => c = ' ')).reverse.dropWhile (fun c => c = ' ')).reverse)

/-! ## JSON values

Model of the JSON payloads the proxy re-parses and re-serializes.  The
model covers null, booleans, integers, escape-free printable-ASCII
strings, arrays and objects — floats, escape sequences and non-ASCII
text are outside the model (inputs using them are treated as unparsable,
which is conservative for the byte-fidelity claims settled below). -/
inductive Json where
  | null
  | bool (b : Bool)
  | num (n : Int)
  | str (s : String)
  | arr (xs : List Json)
  | obj (fields : List (String × Json))

mutual

/-- Python `json.dumps` with its default settings (separators
`", "` and `": "`, no indent), on the modelled JSON subset. -/
def pyDumps : Json → String
  | .null => "null"
  | .bool true => "true"
  | .bool false => "false"
  | .num n => toString n
  | .str s => "\"" ++ s ++ "\""
  | .arr xs => "[" ++ pyDumpsItems xs ++ "]"
  | .obj fields => "\x7b" ++ pyDumpsFields fields ++ "\x7d"

/-- Comma-separated serialization of array items. -/
def pyDumpsItems : List Json → String
  | [] => ""
  | [x] => pyDumps x
  | x :: y :: xs => pyDumps x ++ ", " ++ pyDumpsItems (y :: xs)

/-- Comma-separated serialization of object fields. -/
def pyDumpsFields : List (String × Json) → String
  | [] => ""
  | [(k, v)] => "\"" ++ k ++ "\": " ++ pyDumps v
  | (k, v) :: f :: fs => "\"" ++ k ++ "\": " ++ pyDumps v ++ ", " ++ pyDumpsFields (f :: fs)

end

/-- JSON insignificant whitespace, as accepted by Python's `json.loads`. -/
def isJsonWs (c : Char) : Bool :=
  c = ' ' || c = '\t' || c = '\n' || c = '\r'

def skipWs : List Char → List Char
  | [] => []
  | c :: cs => if isJsonWs c then skipWs cs else c :: cs

/-- A character admissible inside a modelled JSON string literal:
printable ASCII, no quote, no backslash (escape sequences are not
modelled). -/
def isPlainStrChar (c : Char) : Bool :=
  0x20 ≤ c.val && c.val ≤ 0x7e && c ≠ '"' && c ≠ '\\'

/-- Consume the body of a string literal up to (and including) the
closing quote. -/
def parseStrChars : List Char → Option (List Char × List Char)
  | [] => none
  | c :: cs =>
      if c = '"' then some ([], cs)
      else if isPlainStrChar c then
        match parseStrChars cs with
        | some (acc, rest) => some (c :: acc, rest)
        | none => none
      else none

def digitsToNat (ds : List Char) : Nat :=
  ds.foldl (fun acc c => 10 * acc + (c.toNat - '0'.toNat)) 0

/-- An integer literal per Python's `json`: optional minus, no leading
zeros; a following `.`, `e` or `E` (a float) is outside the model. -/
def parseNum (cs : List Char) : Option (Json × List Char) :=
  let (neg, cs₁) :=
    match cs with
    | '-' :: rest => (true, rest)
    | _ => (false, cs)
  let ds := cs₁.takeWhile (fun c => c.isDigit)
  let rest := cs₁.dropWhile (fun c => c.isDigit)
  if ds = [] then none
  else if ds.length > 1 && ds.headD '0' = '0' then none
  else
    match rest with
    | '.' :: _ => none
    | 'e' :: _ => none
    | 'E' :: _ => none
    | _ =>
        let n : Int := Int.ofNat (digitsToNat ds)
        some (.num (if neg then -n else n), rest)

mutual

/-- Parse one JSON value (leading whitespace allowed); fuel bounds the
recursion depth. -/
def parseValue : Nat → List Char → Option (Json × List Char)
  | 0, _ => none
  | fuel + 1, cs =>
      match skipWs cs with
      | 'n' :: 'u' :: 'l' :: 'l' :: rest => some (.null, rest)
      | 't' :: 'r' :: 'u' :: 'e' :: rest => some (.bool true, rest)
      | 'f' :: 'a' :: 'l' :: 's' :: 'e' :: rest => some (.bool false, rest)
      | '"' :: rest =>
          match parseStrChars rest with
          | some (acc, rest') => some (.str (String.mk acc), rest')
          | none => none
      | '[' :: rest =>
          match skipWs rest with
          | ']' :: rest' => some (.arr [], rest')
          | cs' =>
              match parseItems fuel cs' with
              | some (vs, rest') => some (.arr vs, rest')
              | none => none
      | '\x7b' :: rest =>
          match skipWs rest with
          | '\x7d' :: rest' => some (.obj [], rest')
          | cs' =>
              match parseFields fuel cs' with
              | some (fs, rest') =>
                  some (.obj (fs.foldl (fun acc p => dictSet acc p.1 p.2) []), rest')
              | none => none
      | cs' => parseNum cs'

/-- Parse the comma-separated items of a non-empty array, consuming the
closing bracket. -/
def parseItems : Nat → List Char → Option (List Json × List Char)
  | 0, _ => none
  | fuel + 1, cs =>
      match parseValue fuel cs with
      | some (v, rest) =>
          match skipWs rest with
          | ',' :: more =>
              match parseItems fuel more with
              | some (vs, rest') => some (v :: vs, rest')
              | none => none
          | ']' :: rest' => some ([v], rest')
          | _ => none
      | none => none

/-- Parse the comma-separated `"key": value` pairs of a non-empty
object, consuming the closing brace. -/
def parseFields : Nat → List Char → Option (List (String × Json) × List Char)
  | 0, _ => none
  | fuel + 1, cs =>
      match cs with
      | '"' :: cs₁ =>
          match parseStrChars cs₁ with
          | some (kcs, cs₂) =>
              match skipWs cs₂ with
              | ':' :: cs₃ =>
                  match parseValue fuel cs₃ with
                  | some (v, cs₄) =>
                      match skipWs cs₄ with
                      | ',' :: cs₅ =>
                          match parseFields fuel (skipWs cs₅) with
                          | some (fs, rest) => some ((String.mk kcs, v) :: fs, rest)
                          | none => none
                      | '\x7d' :: rest => some ([(String.mk kcs, v)], rest)
                      | _ => none
                  | none => none
              | _ => none
          | none => none
      | _ => none

end

/-- Python `json.loads` on the modelled subset: one value, optionally
surrounded by whitespace, nothing trailing. -/
def pyJsonLoads (s : String) : Option Json :=
  match parseValue (2 * s.length + 2) s.toList with
  | some (v, rest) => if skipWs rest = [] then some v else none
  | none => none

/-- The mimetype of a Content-Type header value: the part before any
`;` parameters, trimmed and lowercased (as werkzeug normalizes it). -/
def mimetype (ct : Option String) : String :=
  pyLower (pyStrip (String.mk ((ct.getD "").data.takeWhile (fun c => c ≠ ';'))))

/-- Flask `request.is_json` (werkzeug): mimetype exactly
`application/json`, or an `application/…+json` suffix type — the
`application/` prefix is required, so `text/foo+json` is non-JSON. -/
def isJsonCT (ct : Option String) : Bool :=
  mimetype ct = "application/json" ||
    ("application/".data.isPrefixOf (mimetype ct).data &&
      "+json".data.isSuffixOf (mimetype ct).data)

/-- Flask `request.get_json(silent=True)` as the Python value the
handler receives: `none` (Python `None`) when the request does not
advertise a JSON content type, when the body fails to parse, and also
when the body is the JSON literal `null` — parsed `null` is Python
`None`, indistinguishable from a parse failure to the caller. -/
def pyGetJsonSilent (ct : Option String) (raw : String) : Option Json :=
  if isJsonCT ct then
    match pyJsonLoads raw with
    | some .null => none
    | r => r
  else none

/-! ## AliasStore

`AliasStore` owns the in-memory alias map, default alias and legacy
target, plus the optional redis connection.  A redis connection is
modelled as its keyspace (the string keys `optimus:target` and
`optimus:alias_default` live in `kv`; the hash `optimus:aliases` in
`hashes`) together with a `failing` flag: when it is set, every redis
command raises, modelling an unreachable durable store.  Store
operations return `Except StorageErr …`; an uncaught Python exception
is the `.error` case. -/
inductive StorageErr where
  | unreachable
deriving Repr, DecidableEq

structure RedisConn where
  kv : List (String × String)
  hashes : List (String × String)
  failing : Bool
deriving Repr, DecidableEq

/-- redis `GET` (`decode_responses=True`): `none` when the key is absent. -/
def RedisConn.rget (c : RedisConn) (k : String) : Except StorageErr (Option String) :=
  if c.failing then .error .unreachable else .ok (dictGet c.kv k)

/-- redis `SET`. -/
def RedisConn.rset (c : RedisConn) (k v : String) : Except StorageErr RedisConn :=
  if c.failing then .error .unreachable
  else .ok { c with kv := dictSet c.kv k v }

/-- redis `DEL`. -/
def RedisConn.rdel (c : RedisConn) (k : String) : Except StorageErr RedisConn :=
  if c.failing then .error .unreachable
  else .ok { c with kv := dictPop c.kv k }

/-- redis `HSET` on the `optimus:aliases` hash. -/
def RedisConn.rhset (c : RedisConn) (k v : String) : Except StorageErr RedisConn :=
  if c.failing then .error .unreachable
  else .ok { c with hashes := dictSet c.hashes k v }

/-- redis `HDEL` on the `optimus:aliases` hash. -/
def RedisConn.rhdel (c : RedisConn) (k : String) : Except StorageErr RedisConn :=
  if c.failing then .error .unreachable
  else .ok { c with hashes := dictPop c.hashes k }

/-- redis `HGETALL` on the `optimus:aliases` hash. -/
def RedisConn.rhgetall (c : RedisConn) : Except StorageErr (List (String × String)) :=
  if c.failing then .error .unreachable else .ok c.hashes

structure AliasStore where
  mem : List (String × String)
  _default : Option String
  target_legacy : Option String
  r : Option RedisConn
deriving Repr, DecidableEq

/-- Python truthiness of an optional string (`None` and `""` are falsy). -/
def pyTruthyS : Option String → Bool
  | none => false
  | some v => v ≠ ""

/-- `AliasStore.set_target`: write-through to redis (unguarded — a redis
failure raises before the in-memory write), then overwrite the legacy
target. -/
def AliasStore.set_target (s : AliasStore) (url : String) : Except StorageErr AliasStore :=
  match s.r with
  | some c =>
      match c.rset "optimus:target" url with
      | .error e => .error e
      | .ok c' => .ok { s with r := some c', target_legacy := some url }
  | none => .ok { s with target_legacy := some url }

/-- `AliasStore.get_target`: the redis value when truthy, else the
in-memory legacy target; the redis read is unguarded. -/
def AliasStore.get_target (s : AliasStore) : Except StorageErr (Option String) :=
  match s.r with
  | some c =>
      match c.rget "optimus:target" with
      | .error e => .error e
      | .ok val => if pyTruthyS val then .ok val else .ok s.target_legacy
  | none => .ok s.target_legacy

/-- `AliasStore.set_default_alias`: truthy alias is written to redis,
falsy alias deletes the redis key (both unguarded); then the in-memory
default is overwritten. -/
def AliasStore.set_default_alias (s : AliasStore) (al : Option String) :
    Except StorageErr AliasStore :=
  match s.r with
  | some c =>
      if pyTruthyS al then
        match c.rset "optimus:alias_default" (al.getD "") with
        | .error e => .error e
        | .ok c' => .ok { s with r := some c', _default := al }
      else
        match c.rdel "optimus:alias_default" with
        | .error e => .error e
        | .ok c' => .ok { s with r := some c', _default := al }
  | none => .ok { s with _default := al }

/-- `AliasStore.get_default_alias`: redis value when truthy, else the
in-memory default; the redis read is unguarded. -/
def AliasStore.get_default_alias (s : AliasStore) : Except StorageErr (Option String) :=
  match s.r with
  | some c =>
      match c.rget "optimus:alias_default" with
      | .error e => .error e
      | .ok val => if pyTruthyS val then .ok val else .ok s._default
  | none => .ok s._default

/-- `AliasStore.register_alias`: lowercases the alias, writes through to
the redis hash (unguarded), stores in memory, and when `dflt` is set
also makes it the default. -/
def AliasStore.register_alias (s : AliasStore) (al url : String) (dflt : Bool) :
    Except StorageErr AliasStore :=
  let a := pyLower al
  match s.r with
  | some c =>
      match c.rhset a url with
      | .error e => .error e
      | .ok c' =>
          let s₂ := { s with r := some c', mem := dictSet s.mem a url }
          if dflt then s₂.set_default_alias (some a) else .ok s₂
  | none =>
      let s₂ := { s with mem := dictSet s.mem a url }
      if dflt then s₂.set_default_alias (some a) else .ok s₂

/-- `AliasStore.list_aliases`: the in-memory map updated with the redis
hash when reachable; the only store operation whose redis access is
wrapped in `try/except` — a failure silently degrades to memory only. -/
def AliasStore.list_aliases (s : AliasStore) : List (String × String) :=
  match s.r with
  | some c =>
      match c.rhgetall with
      | .error _ => s.mem
      | .ok h => dictUpdate s.mem h
  | none => s.mem

/-- `AliasStore.delete_alias`: lowercases the alias, removes it from the
redis hash (unguarded) and from memory, then clears the default when
the stored default equals the lowercased alias. -/
def AliasStore.delete_alias (s : AliasStore) (al : String) : Except StorageErr AliasStore :=
  let a := pyLower al
  match s.r with
  | some c =>
      match c.rhdel a with
      | .error e => .error e
      | .ok c' =>
          let s₂ := { s with r := some c', mem := dictPop s.mem a }
          match s₂.get_default_alias with
          | .error e => .error e
          | .ok da => if da == some a then s₂.set_default_alias none else .ok s₂
  | none =>
      let s₂ := { s with mem := dictPop s.mem a }
      match s₂.get_default_alias with
      | .error e => .error e
      | .ok da => if da == some a then s₂.set_default_alias none else .ok s₂

/-- `AliasStore.resolve`: hinted alias (lowercased) when present in the
alias map; else the default alias when truthy and present; else the
legacy target. -/
def AliasStore.resolve (s : AliasStore) (al : Option String) :
    Except StorageErr (Option String) :=
  let hit :=
    if pyTruthyS al then dictGet s.list_aliases (pyLower (al.getD "")) else none
  match hit with
  | some u => .ok (some u)
  | none =>
      match s.get_default_alias with
      | .error e => .error e
      | .ok da =>
          let hit₂ := if pyTruthyS da then dictGet s.list_aliases (da.getD "") else none
          match hit₂ with
          | some u => .ok (some u)
          | none => s.get_target

/-- The configured durable store (if any) is reachable. -/
def storeOk (s : AliasStore) : Bool :=
  match s.r with
  | some c => !c.failing
  | none => true

/-- Keys are duplicate-free in every modelled dictionary of the store
(always true of real Python dicts and redis hashes). -/
def storeWF (s : AliasStore) : Bool :=
  dictNodup s.mem &&
    match s.r with
    | some c => dictNodup c.kv && dictNodup c.hashes
    | none => true

/-- The value `get_default_alias` yields on a reachable store. -/
def defaultAliasView (s : AliasStore) : Option String :=
  match s.r with
  | some c =>
      let val := dictGet c.kv "optimus:alias_default"
      if pyTruthyS val then val else s._default
  | none => s._default

/-- The value `get_target` yields on a reachable store. -/
def targetView (s : AliasStore) : Option String :=
  match s.r with
  | some c =>
      let val := dictGet c.kv "optimus:target"
      if pyTruthyS val then val else s.target_legacy
  | none => s.target_legacy

/-- The resolution precedence as §4.2 of the spec words it: the hinted
alias's URL when the hint is non-empty and (case-insensitively) present
in the alias map; else the default alias's URL when a default is set
and present in the map; else the legacy target (which may be absent). -/
def resolveSpec (aliasMap : List (String × String)) (dfltAlias legacyTarget hint : Option String) :
    Option String :=
  if pyTruthyS hint && (dictGet aliasMap (pyLower (hint.getD ""))).isSome then
    dictGet aliasMap (pyLower (hint.getD ""))
  else if pyTruthyS dfltAlias && (dictGet aliasMap (dfltAlias.getD "")).isSome then
    dictGet aliasMap (dfltAlias.getD "")
  else legacyTarget

/-! ## HTTP layer: forwarder and admin endpoints -/
/-- The environment-derived configuration the handlers read. -/
structure ProxyConfig where
  PUBLIC_API_KEY : String
  UPSTREAM_API_KEY : String
  ADMIN_TOKEN : String
deriving Repr, DecidableEq

/-- An inbound HTTP request as the handlers consume it. -/
structure HttpRequest where
  method : String
  headers : List (String × String)
  rawBody : String
deriving Repr, DecidableEq

/-- `request.headers.get(k)`: HTTP header lookup is case-insensitive. -/
def headerGet (hs : List (String × String)) (k : String) : Option String :=
  match hs with
  | [] => none
  | (k', v) :: rest => if pyLower k' = pyLower k then some v else headerGet rest k

/-- A response body: empty, a `jsonify`-produced JSON document, or the
raw relayed upstream bytes. -/
inductive RespBody where
  | empty
  | json (j : Json)
  | raw (content : String)

/-- `jsonify({"error": msg})`. -/
def jsonError (msg : String) : RespBody :=
  .json (.obj [("error", .str msg)])

/-- The outbound `requests.post` call as constructed by the forwarder:
URL, the value passed as the `json=` keyword (absent when the inbound
body did not parse), headers, and the timeout in seconds. -/
structure OutboundRequest where
  url : String
  jsonBody : Option Json
  headers : List (String × String)
  timeout : Nat

/-- The byte sequence the upstream receives as the request body:
`requests` serializes the `json=` value with `json.dumps`, and attaches
no body at all when that value is `None`. -/
def sentBody (o : OutboundRequest) : Option String :=
  o.jsonBody.map pyDumps

/-- The outcome of the single outbound call: a response, a
`requests.Timeout`, or another `requests.RequestException`. -/
inductive UpstreamResult where
  | response (status : Nat) (content : String) (contentType : Option String)
  | timeout
  | reqError (msg : String)

/-- What a run of the forwarding handler produced: the client-facing
status and body, the content type of the reply, every outbound HTTP
call it issued (in order), and whether it invoked target resolution. -/
structure ProxyOutcome where
  status : Nat
  body : RespBody
  contentType : Option String
  outboundCalls : List OutboundRequest
  resolveCalled : Bool

/-- Python `str.rstrip('/')`. -/
def rstripSlash (t : String) : String :=
  String.mk ((t.toList.reverse.dropWhile (fun c => c = '/')).reverse)

/-- The `POST /webhook/optimus` handler (`proxy_webhook`), parametrized
by the behavior `upstream` of the network on the outbound call. -/
def proxy_webhook (cfg : ProxyConfig) (s : AliasStore)
    (upstream : OutboundRequest → UpstreamResult) (req : HttpRequest) :
    Except StorageErr ProxyOutcome :=
  if req.method = "OPTIONS" then
    .ok ⟨204, .empty, none, [], false⟩
  else if cfg.PUBLIC_API_KEY ≠ "" ∧
      headerGet req.headers "x-client-key" ≠ some cfg.PUBLIC_API_KEY then
    .ok ⟨401, jsonError "Unauthorized client", some "application/json", [], false⟩
  else
    match s.resolve (headerGet req.headers "x-optimus-alias") with
    | .error e => .error e
    | .ok target =>
        if ¬ pyTruthyS target then
          .ok ⟨503, jsonError "No hay backend registrado", some "application/json", [], true⟩
        else
          let body := pyGetJsonSilent (headerGet req.headers "Content-Type") req.rawBody
          let hdrs := [("Content-Type", "application/json"),
                       ("x-api-key", cfg.UPSTREAM_API_KEY)]
          let hdrs :=
            if pyTruthyS (headerGet req.headers "x-optimus-model") then
              dictSet hdrs "x-optimus-model"
                ((headerGet req.headers "x-optimus-model").getD "")
            else hdrs
          let out : OutboundRequest :=
            ⟨rstripSlash (target.getD "") ++ "/webhook/optimus", body, hdrs, 130⟩
          match upstream out with
          | .timeout =>
              .ok ⟨504, jsonError "timeout upstream", some "application/json", [out], true⟩
          | .reqError e =>
              .ok ⟨502, jsonError ("upstream error: " ++ e), some "application/json", [out], true⟩
          | .response st content ct =>
              .ok ⟨st, .raw content, some (ct.getD "application/json"), [out], true⟩

/-- `require_admin`: `bool(tok and tok == ADMIN_TOKEN)` on the
`admin-token` header. -/
def require_admin (cfg : ProxyConfig) (headers : List (String × String)) : Bool :=
  match headerGet headers "admin-token" with
  | none => false
  | some tok => tok ≠ "" && tok == cfg.ADMIN_TOKEN

/-- Python truthiness of a JSON value. -/
def pyTruthyJ : Json → Bool
  | .null => false
  | .bool b => b
  | .num n => n ≠ 0
  | .str s => s ≠ ""
  | .arr xs => !xs.isEmpty
  | .obj fields => !fields.isEmpty

/-- `data.get(k)` on the parsed request body when the field is a JSON
string (the only shape the admin endpoints pass on to the store). -/
def dataGetStr (data : List (String × Json)) (k : String) : Option String :=
  match dictGet data k with
  | some (.str s) => some s
  | _ => none

/-- What an admin endpoint produced: status, `jsonify` body, and the
store as the call left it. -/
structure AdminResult where
  status : Nat
  body : Json
  store : AliasStore

/-- `jsonify`-shaped `{"error": msg}` object. -/
def jErr (msg : String) : Json :=
  .obj [("error", .str msg)]

/-- The alias map as the admin endpoints serialize it. -/
def aliasesJson (m : List (String × String)) : Json :=
  .obj (m.map (fun p => (p.1, .str p.2)))

/-- An optional string as `jsonify` renders it (`None` → `null`). -/
def optJson : Option String → Json
  | some v => .str v
  | none => .null

/-- `POST /admin/register` (`admin_register`). The request body is
modelled as the parsed JSON object `data` (per the source's
`request.get_json(silent=True) or {}`); the `url` field is modelled as
a JSON string. -/
def admin_register (cfg : ProxyConfig) (s : AliasStore)
    (headers : List (String × String)) (data : List (String × Json)) :
    Except StorageErr AdminResult :=
  if ¬ require_admin cfg headers then .ok ⟨401, jErr "Unauthorized", s⟩
  else
    let url := dataGetStr data "url"
    if ¬ pyTruthyS url then .ok ⟨400, jErr "url requerido", s⟩
    else
      match s.set_target (url.getD "") with
      | .error e => .error e
      | .ok s' =>
          .ok ⟨200, .obj [("ok", .bool true), ("target", .str (url.getD ""))], s'⟩

/-- `POST /admin/alias/register` (`admin_alias_register`). -/
def admin_alias_register (cfg : ProxyConfig) (s : AliasStore)
    (headers : List (String × String)) (data : List (String × Json)) :
    Except StorageErr AdminResult :=
  if ¬ require_admin cfg headers then .ok ⟨401, jErr "Unauthorized", s⟩
  else
    let al := dataGetStr data "alias"
    let url := dataGetStr data "url"
    let dflt := pyTruthyJ ((dictGet data "default").getD (.bool false))
    if ¬ (pyTruthyS al && pyTruthyS url) then
      .ok ⟨400, jErr "alias y url requeridos", s⟩
    else
      match s.register_alias (al.getD "") (url.getD "") dflt with
      | .error e => .error e
      | .ok s' =>
          match s'.get_default_alias with
          | .error e => .error e
          | .ok da =>
              .ok ⟨200, .obj [("ok", .bool true),
                              ("aliases", aliasesJson s'.list_aliases),
                              ("default", optJson da)], s'⟩

/-- `POST /admin/alias/set-default` (`admin_alias_set_default`); note
the alias is stored verbatim, without lowercasing. -/
def admin_alias_set_default (cfg : ProxyConfig) (s : AliasStore)
    (headers : List (String × String)) (data : List (String × Json)) :
    Except StorageErr AdminResult :=
  if ¬ require_admin cfg headers then .ok ⟨401, jErr "Unauthorized", s⟩
  else
    let al := dataGetStr data "alias"
    if ¬ pyTruthyS al then .ok ⟨400, jErr "alias requerido", s⟩
    else
      match s.set_default_alias (some (al.getD "")) with
      | .error e => .error e
      | .ok s' =>
          match s'.get_default_alias with
          | .error e => .error e
          | .ok da => .ok ⟨200, .obj [("ok", .bool true), ("default", optJson da)], s'⟩

/-- `GET /admin/alias/list` (`admin_alias_list`). -/
def admin_alias_list (cfg : ProxyConfig) (s : AliasStore)
    (headers : List (String × String)) : Except StorageErr AdminResult :=
  if ¬ require_admin cfg headers then .ok ⟨401, jErr "Unauthorized", s⟩
  else
    match s.get_default_alias with
    | .error e => .error e
    | .ok da =>
        .ok ⟨200, .obj [("ok", .bool true),
                        ("aliases", aliasesJson s.list_aliases),
                        ("default", optJson da)], s⟩

/-- `DELETE /admin/alias/<alias>` (`admin_alias_delete`). -/
def admin_alias_delete (cfg : ProxyConfig) (s : AliasStore)
    (headers : List (String × String)) (al : String) : Except StorageErr AdminResult :=
  if ¬ require_admin cfg headers then .ok ⟨401, jErr "Unauthorized", s⟩
  else
    match s.delete_alias al with
    | .error e => .error e
    | .ok s' =>
        match s'.get_default_alias with
        | .error e => .error e
        | .ok da =>
            .ok ⟨200, .obj [("ok", .bool true),
                            ("aliases", aliasesJson s'.list_aliases),
                            ("default", optJson da)], s'⟩

def c2store : AliasStore := ⟨[("foo", "http://a")], some "miss", some "http://t", none⟩

def c5cfg : ProxyConfig := ⟨"", "upkey", "tok"⟩

def c5store : AliasStore := ⟨[], none, none, none⟩

def c5req : HttpRequest := ⟨"POST", [], ""⟩

def c5up : OutboundRequest → UpstreamResult := fun _ => .response 200 "" none

def c6cfg : ProxyConfig := ⟨"secret", "upkey", "tok"⟩

def c6store : AliasStore := ⟨[], none, some "http://t", none⟩

def c6req : HttpRequest := ⟨"POST", [("x-client-key", "wrong")], ""⟩

def c6up : OutboundRequest → UpstreamResult := fun _ => .response 200 "" none

def c6cfgOpen : ProxyConfig := ⟨"", "upkey", "tok"⟩

def c7cfg : ProxyConfig := ⟨"", "upkey", "tok"⟩

def c7store : AliasStore := ⟨[], none, some "http://t", none⟩

def c7req : HttpRequest := ⟨"POST", [], "\x7b\"a\": 1\x7d"⟩

def c7timeoutNet : OutboundRequest → UpstreamResult := fun _ => .timeout

def c7refusedNet : OutboundRequest → UpstreamResult := fun _ => .reqError "connection refused"

def c10cfg : ProxyConfig := ⟨"pub", "upkey", ""⟩

def c10store : AliasStore := ⟨[("foo", "http://a")], some "foo", some "http://t", none⟩

def c10hdrs : List (String × String) := [("admin-token", "guess")]

/-- The alias-relevant data of a store: the in-memory map and, when a
redis connection is configured, its hash contents and reachability. -/
def aliasData (s : AliasStore) : List (String × String) × Option (List (String × String) × Bool) :=
  (s.mem, s.r.map (fun c => (c.hashes, c.failing)))

def c8store : AliasStore :=
  ⟨[], none, none, some ⟨[], [("bar", "http://old")], false⟩⟩

def c3store : AliasStore :=
  ⟨[("foo", "http://a")], none, some "http://t", some ⟨[], [], true⟩⟩

def c4store : AliasStore := ⟨[("foo", "http://a")], some "FOO", none, none⟩

def c4wstore : AliasStore := ⟨[("foo", "http://a")], some "foo", none, none⟩

def c1cfg : ProxyConfig := ⟨"", "upkey", "tok"⟩

def c1store : AliasStore := ⟨[], none, some "http://up", none⟩

def c1req : HttpRequest := ⟨"POST", [("Content-Type", "application/json")], "\x7b"⟩

def c1net : OutboundRequest → UpstreamResult := fun _ => .response 200 "ok" none

def c1wreq : HttpRequest := ⟨"POST", [("Content-Type", "application/json")], "\x7b\"a\":1\x7d"⟩

def c1nullreq : HttpRequest := ⟨"POST", [("Content-Type", "application/json")], "null"⟩

def c9cfg : ProxyConfig := ⟨"", "upkey", "tok"⟩

def c9store : AliasStore := ⟨[], none, some "http://up", none⟩

def c9req : HttpRequest := ⟨"POST", [("Content-Type", "text/plain")], "hello"⟩

def c9net : OutboundRequest → UpstreamResult := fun _ => .response 200 "ok" none

def c9wreq : HttpRequest := ⟨"POST", [("Content-Type", "text/html")], ""⟩

/-! ## Theorems -/

theorem dictGet_dictSet_self (m : List (String × α)) (k : String) (v : α) :
    dictGet (dictSet m k v) k = some v := by
  induction m with
  | nil => simp [dictGet, dictSet]
  | cons p rest ih =>
      obtain ⟨k', v'⟩ := p
      by_cases h : k' = k <;> simp [dictGet, dictSet, h, ih]

theorem dictGet_dictSet_ne (m : List (String × α)) (k k' : String) (v : α)
    (h : k ≠ k') : dictGet (dictSet m k v) k' = dictGet m k' := by
  induction m with
  | nil => simp [dictGet, dictSet, h]
  | cons p rest ih =>
      obtain ⟨k₀, v₀⟩ := p
      by_cases h0 : k₀ = k
      · subst h0
        simp [dictGet, dictSet, h]
      · simp only [dictSet, if_neg h0]
        by_cases h1 : k₀ = k'
        · simp [dictGet, h1]
        · simp [dictGet, h1, ih]

theorem dictNodup_dictSet (m : List (String × α)) (k : String) (v : α)
    (h : dictNodup m = true) : dictNodup (dictSet m k v) = true := by
  induction m with
  | nil => simp [dictNodup, dictSet, dictGet]
  | cons p rest ih =>
      obtain ⟨k', v'⟩ := p
      simp only [dictNodup, Bool.and_eq_true] at h
      by_cases h0 : k' = k
      · subst h0
        simpa [dictSet, dictNodup] using h
      · simp only [dictSet, if_neg h0, dictNodup, Bool.and_eq_true]
        refine ⟨?_, ih h.2⟩
        rw [dictGet_dictSet_ne]
        · exact h.1
        · exact fun hk => h0 hk.symm

theorem dictGet_dictUpdate (l m : List (String × α)) (k : String)
    (h : dictNodup l = true) :
    dictGet (dictUpdate m l) k =
      match dictGet l k with
      | some v => some v
      | none => dictGet m k := by
  induction l generalizing m with
  | nil => simp [dictUpdate, dictGet]
  | cons p rest ih =>
      obtain ⟨k₁, v₁⟩ := p
      simp only [dictNodup, Bool.and_eq_true] at h
      by_cases h0 : k₁ = k
      · have hrest : dictGet rest k = none := by
          rw [← h0]
          simpa [Option.isNone_iff_eq_none] using h.1
        simp [dictUpdate, ih _ h.2, dictGet, h0, hrest, dictGet_dictSet_self]
      · simp only [dictUpdate, ih _ h.2, dictGet, if_neg h0]
        cases hr : dictGet rest k with
        | some v => simp
        | none => simp [dictGet_dictSet_ne _ _ _ _ h0]

theorem dictGet_dictPop_self (m : List (String × α)) (k : String) :
    dictGet (dictPop m k) k = none := by
  induction m with
  | nil => simp [dictPop, dictGet]
  | cons p rest ih =>
      obtain ⟨k', v'⟩ := p
      by_cases h : k' = k
      · simpa [dictPop, h] using ih
      · simpa [dictPop, dictGet, h] using ih

theorem dictGet_dictPop_ne (m : List (String × α)) (k k' : String)
    (h : k ≠ k') : dictGet (dictPop m k) k' = dictGet m k' := by
  induction m with
  | nil => simp [dictPop, dictGet]
  | cons p rest ih =>
      obtain ⟨k₀, v₀⟩ := p
      by_cases h0 : k₀ = k
      · subst h0
        have hne : ¬ (k₀ = k') := h
        simpa [dictPop, List.filter_cons, dictGet, hne] using ih
      · by_cases h1 : k₀ = k'
        · subst h1
          simp [dictPop, List.filter_cons, dictGet, h0]
        · simpa [dictPop, List.filter_cons, h0, dictGet, h1] using ih

theorem get_default_alias_eq_view (s : AliasStore) (h : storeOk s = true) :
    s.get_default_alias = .ok (defaultAliasView s) := by
  unfold AliasStore.get_default_alias defaultAliasView
  cases hr : s.r with
  | none => rfl
  | some c =>
      have hf : c.failing = false := by
        simpa [storeOk, hr] using h
      simp only [RedisConn.rget, hf, Bool.false_eq_true, if_false]
      split <;> rfl

theorem get_target_eq_view (s : AliasStore) (h : storeOk s = true) :
    s.get_target = .ok (targetView s) := by
  unfold AliasStore.get_target targetView
  cases hr : s.r with
  | none => rfl
  | some c =>
      have hf : c.failing = false := by
        simpa [storeOk, hr] using h
      simp only [RedisConn.rget, hf, Bool.false_eq_true, if_false]
      split <;> rfl

theorem resolve_eq_resolveSpec (s : AliasStore) (hint : Option String)
    (h : storeOk s = true) :
    s.resolve hint =
      .ok (resolveSpec s.list_aliases (defaultAliasView s) (targetView s) hint) := by
  unfold AliasStore.resolve resolveSpec
  rw [get_default_alias_eq_view s h, get_target_eq_view s h]
  by_cases h₁ : pyTruthyS hint = true
  · simp only [h₁, if_true, Bool.true_and]
    cases hhit : dictGet s.list_aliases (pyLower (hint.getD "")) with
    | some u => simp [hhit]
    | none =>
        simp only [hhit, Option.isSome_none, Bool.false_eq_true, if_false]
        by_cases h₂ : pyTruthyS (defaultAliasView s) = true
        · simp only [h₂, if_true, Bool.true_and]
          cases hhit₂ : dictGet s.list_aliases ((defaultAliasView s).getD "") with
          | some u => simp [hhit₂]
          | none => simp [hhit₂]
        · simp only [Bool.not_eq_true] at h₂
          simp [h₂]
  · simp only [Bool.not_eq_true] at h₁
    simp only [h₁, Bool.false_and, Bool.false_eq_true, if_false]
    by_cases h₂ : pyTruthyS (defaultAliasView s) = true
    · simp only [h₂, if_true, Bool.true_and]
      cases hhit₂ : dictGet s.list_aliases ((defaultAliasView s).getD "") with
      | some u => simp [hhit₂]
      | none => simp [hhit₂]
    · simp only [Bool.not_eq_true] at h₂
      simp [h₂]

/-! ## Claims -/
/-- C2: for every optional alias hint, `resolve` follows the fixed
precedence order, first match winning: the hinted alias's URL when the
hint is non-empty and (case-insensitively) present in the alias map;
else the default alias's URL when a default is set and present in the
map; else the legacy target; and `resolve` returns absent when none of
the three apply (`resolveSpec` with an absent legacy target is
`none`). -/
theorem c2_resolve_precedence (s : AliasStore) (hint : Option String)
    (h : storeOk s = true) :
    s.resolve hint =
      .ok (resolveSpec s.list_aliases (defaultAliasView s) (targetView s) hint) :=
  resolve_eq_resolveSpec s hint h

theorem c2_witness :
    storeOk c2store = true ∧
      c2store.resolve (some "FOO") = .ok (some "http://a") ∧
      c2store.resolve none = .ok (some "http://t") :=
  ⟨rfl, (c2_resolve_precedence c2store (some "FOO") rfl).trans rfl,
    (c2_resolve_precedence c2store none rfl).trans rfl⟩

/-- C5: when target resolution yields no target (and the request is a
non-preflight request that passed the client-key gate), the forwarder
responds 503 with the JSON error payload and issues no outbound HTTP
call. -/
theorem c5_no_target_503 (cfg : ProxyConfig) (s : AliasStore)
    (upstream : OutboundRequest → UpstreamResult) (req : HttpRequest)
    (hm : req.method ≠ "OPTIONS")
    (hauth : cfg.PUBLIC_API_KEY = "" ∨
      headerGet req.headers "x-client-key" = some cfg.PUBLIC_API_KEY)
    (hres : s.resolve (headerGet req.headers "x-optimus-alias") = .ok none) :
    proxy_webhook cfg s upstream req =
      .ok ⟨503, jsonError "No hay backend registrado", some "application/json", [], true⟩ := by
  have hcond : ¬ (cfg.PUBLIC_API_KEY ≠ "" ∧
      headerGet req.headers "x-client-key" ≠ some cfg.PUBLIC_API_KEY) := by
    rcases hauth with h | h
    · exact fun hc => hc.1 h
    · exact fun hc => hc.2 h
  unfold proxy_webhook
  rw [if_neg hm, if_neg hcond, hres]
  simp [pyTruthyS]

theorem c5_witness :
    c5req.method ≠ "OPTIONS" ∧
      c5store.resolve (headerGet c5req.headers "x-optimus-alias") = .ok none ∧
      proxy_webhook c5cfg c5store c5up c5req =
        .ok ⟨503, jsonError "No hay backend registrado", some "application/json", [], true⟩ :=
  ⟨by decide, rfl, c5_no_target_503 c5cfg c5store c5up c5req (by decide) (Or.inl rfl) rfl⟩

/-- C6: when a client API key is configured and the request's
`x-client-key` header does not match it, the forwarder rejects with 401
(which is within the claim's "401 or 403"), performs no target
resolution and issues no outbound call; when no client API key is
configured (empty string), the check is skipped and the handler always
proceeds to target resolution. -/
theorem c6_client_key_gate :
    (∀ (cfg : ProxyConfig) (s : AliasStore) (upstream : OutboundRequest → UpstreamResult)
        (req : HttpRequest),
        req.method ≠ "OPTIONS" → cfg.PUBLIC_API_KEY ≠ "" →
        headerGet req.headers "x-client-key" ≠ some cfg.PUBLIC_API_KEY →
        proxy_webhook cfg s upstream req =
          .ok ⟨401, jsonError "Unauthorized client", some "application/json", [], false⟩)
    ∧ (∀ (cfg : ProxyConfig) (s : AliasStore) (upstream : OutboundRequest → UpstreamResult)
        (req : HttpRequest),
        req.method ≠ "OPTIONS" → cfg.PUBLIC_API_KEY = "" → storeOk s = true →
        ∃ o, proxy_webhook cfg s upstream req = .ok o ∧ o.resolveCalled = true) := by
  constructor
  · intro cfg s upstream req hm hk hck
    unfold proxy_webhook
    rw [if_neg hm, if_pos ⟨hk, hck⟩]
  · intro cfg s upstream req hm hk hso
    unfold proxy_webhook
    rw [if_neg hm,
      if_neg (show ¬ (cfg.PUBLIC_API_KEY ≠ "" ∧
        headerGet req.headers "x-client-key" ≠ some cfg.PUBLIC_API_KEY) from
        fun hc => hc.1 hk),
      resolve_eq_resolveSpec s _ hso]
    by_cases ht : pyTruthyS (resolveSpec s.list_aliases (defaultAliasView s)
        (targetView s) (headerGet req.headers "x-optimus-alias")) = true
    · dsimp only
      rw [if_neg (by simp [ht])]
      split <;> exact ⟨_, rfl, rfl⟩
    · dsimp only
      rw [if_pos (by simp [ht])]
      exact ⟨_, rfl, rfl⟩

theorem c6_witness :
    (c6req.method ≠ "OPTIONS" ∧ c6cfg.PUBLIC_API_KEY ≠ "" ∧
      headerGet c6req.headers "x-client-key" ≠ some c6cfg.PUBLIC_API_KEY ∧
      proxy_webhook c6cfg c6store c6up c6req =
        .ok ⟨401, jsonError "Unauthorized client", some "application/json", [], false⟩)
    ∧ ∃ o, proxy_webhook c6cfgOpen c6store c6up c6req = .ok o ∧ o.resolveCalled = true :=
  ⟨⟨by decide, by decide, by decide,
      c6_client_key_gate.1 c6cfg c6store c6up c6req (by decide) (by decide) (by decide)⟩,
    c6_client_key_gate.2 c6cfgOpen c6store c6up c6req (by decide) rfl rfl⟩

/-- C7: for a forwarding request whose upstream call fails, a timeout
maps to 504 and any other network-level failure maps to 502 with a JSON
error payload carrying the failure reason; in both cases the outbound
call list is a single element — exactly one attempt, no retry. -/
theorem c7_upstream_failure_mapping (cfg : ProxyConfig) (s : AliasStore)
    (upstream : OutboundRequest → UpstreamResult) (req : HttpRequest) (t : String)
    (hm : req.method ≠ "OPTIONS")
    (hauth : cfg.PUBLIC_API_KEY = "" ∨
      headerGet req.headers "x-client-key" = some cfg.PUBLIC_API_KEY)
    (hres : s.resolve (headerGet req.headers "x-optimus-alias") = .ok (some t))
    (ht : t ≠ "") :
    ((∀ o, upstream o = .timeout) →
      ∃ ob, proxy_webhook cfg s upstream req =
        .ok ⟨504, jsonError "timeout upstream", some "application/json", [ob], true⟩)
    ∧ ∀ msg, (∀ o, upstream o = .reqError msg) →
      ∃ ob, proxy_webhook cfg s upstream req =
        .ok ⟨502, jsonError ("upstream error: " ++ msg), some "application/json", [ob], true⟩ := by
  have hcond : ¬ (cfg.PUBLIC_API_KEY ≠ "" ∧
      headerGet req.headers "x-client-key" ≠ some cfg.PUBLIC_API_KEY) := by
    rcases hauth with h | h
    · exact fun hc => hc.1 h
    · exact fun hc => hc.2 h
  constructor
  · intro hup
    unfold proxy_webhook
    rw [if_neg hm, if_neg hcond, hres]
    dsimp only
    rw [if_neg (by simp [pyTruthyS, ht])]
    rw [hup]
    exact ⟨_, rfl⟩
  · intro msg hup
    unfold proxy_webhook
    rw [if_neg hm, if_neg hcond, hres]
    dsimp only
    rw [if_neg (by simp [pyTruthyS, ht])]
    rw [hup]
    exact ⟨_, rfl⟩

theorem c7_witness :
    (∃ ob, proxy_webhook c7cfg c7store c7timeoutNet c7req =
      .ok ⟨504, jsonError "timeout upstream", some "application/json", [ob], true⟩)
    ∧ ∃ ob, proxy_webhook c7cfg c7store c7refusedNet c7req =
      .ok ⟨502, jsonError ("upstream error: " ++ "connection refused"),
        some "application/json", [ob], true⟩ :=
  ⟨(c7_upstream_failure_mapping c7cfg c7store c7timeoutNet c7req "http://t"
      (by decide) (Or.inl rfl) rfl (by decide)).1 (fun _ => rfl),
    (c7_upstream_failure_mapping c7cfg c7store c7refusedNet c7req "http://t"
      (by decide) (Or.inl rfl) rfl (by decide)).2 "connection refused" (fun _ => rfl)⟩

/-- C10: when no admin token is configured (the secret is the empty
string), every admin endpoint rejects every request with 401, whatever
`admin-token` header is sent; the surface is closed by default, since
admission requires a non-empty header equal to the configured secret
(which is then necessarily non-empty). -/
theorem c10_admin_closed_by_default :
    (∀ (cfg : ProxyConfig) (s : AliasStore) (headers : List (String × String))
        (data : List (String × Json)) (al : String),
        cfg.ADMIN_TOKEN = "" →
        require_admin cfg headers = false ∧
        admin_register cfg s headers data = .ok ⟨401, jErr "Unauthorized", s⟩ ∧
        admin_alias_register cfg s headers data = .ok ⟨401, jErr "Unauthorized", s⟩ ∧
        admin_alias_set_default cfg s headers data = .ok ⟨401, jErr "Unauthorized", s⟩ ∧
        admin_alias_list cfg s headers = .ok ⟨401, jErr "Unauthorized", s⟩ ∧
        admin_alias_delete cfg s headers al = .ok ⟨401, jErr "Unauthorized", s⟩)
    ∧ ∀ (cfg : ProxyConfig) (headers : List (String × String)),
        require_admin cfg headers = true →
        headerGet headers "admin-token" = some cfg.ADMIN_TOKEN ∧ cfg.ADMIN_TOKEN ≠ "" := by
  constructor
  · intro cfg s headers data al hA
    have hra : require_admin cfg headers = false := by
      unfold require_admin
      cases hg : headerGet headers "admin-token" with
      | none => rfl
      | some tok =>
          by_cases hT : tok = ""
          · simp [hT]
          · simp [hT, hA]
    refine ⟨hra, ?_, ?_, ?_, ?_, ?_⟩ <;>
      simp [admin_register, admin_alias_register, admin_alias_set_default,
        admin_alias_list, admin_alias_delete, hra]
  · intro cfg headers hra
    unfold require_admin at hra
    cases hg : headerGet headers "admin-token" with
    | none => rw [hg] at hra; cases hra
    | some tok =>
        rw [hg] at hra
        simp only [Bool.and_eq_true, decide_eq_true_eq, beq_iff_eq] at hra
        obtain ⟨hne, heq⟩ := hra
        subst heq
        exact ⟨rfl, hne⟩

theorem c10_witness :
    require_admin c10cfg c10hdrs = false ∧
      admin_register c10cfg c10store c10hdrs [] = .ok ⟨401, jErr "Unauthorized", c10store⟩ ∧
      admin_alias_register c10cfg c10store c10hdrs [] =
        .ok ⟨401, jErr "Unauthorized", c10store⟩ ∧
      admin_alias_set_default c10cfg c10store c10hdrs [] =
        .ok ⟨401, jErr "Unauthorized", c10store⟩ ∧
      admin_alias_list c10cfg c10store c10hdrs = .ok ⟨401, jErr "Unauthorized", c10store⟩ ∧
      admin_alias_delete c10cfg c10store c10hdrs "foo" =
        .ok ⟨401, jErr "Unauthorized", c10store⟩ :=
  c10_admin_closed_by_default.1 c10cfg c10store c10hdrs [] "foo" rfl

theorem list_aliases_eq_of_aliasData (s₁ s₂ : AliasStore)
    (h : aliasData s₁ = aliasData s₂) : s₁.list_aliases = s₂.list_aliases := by
  have hmem : s₁.mem = s₂.mem := congrArg Prod.fst h
  have hr : s₁.r.map (fun c => (c.hashes, c.failing)) =
      s₂.r.map (fun c => (c.hashes, c.failing)) := congrArg Prod.snd h
  unfold AliasStore.list_aliases
  cases h₁ : s₁.r with
  | none =>
      rw [h₁] at hr
      cases h₂ : s₂.r with
      | none => exact hmem
      | some c₂ => rw [h₂] at hr; cases hr
  | some c₁ =>
      rw [h₁] at hr
      cases h₂ : s₂.r with
      | none => rw [h₂] at hr; cases hr
      | some c₂ =>
          rw [h₂] at hr
          simp only [Option.map_some', Option.some.injEq, Prod.mk.injEq] at hr
          simp only [RedisConn.rhgetall, hr.1, hr.2, hmem]

theorem set_default_alias_preserves_aliasData (s : AliasStore) (al : Option String)
    (s' : AliasStore) (h : s.set_default_alias al = .ok s') :
    aliasData s' = aliasData s := by
  unfold AliasStore.set_default_alias at h
  cases hr : s.r with
  | none =>
      simp only [hr, Except.ok.injEq] at h
      subst h
      simp [aliasData, hr]
  | some c =>
      simp only [hr] at h
      by_cases hT : pyTruthyS al = true
      · rw [if_pos hT] at h
        cases hf : c.failing with
        | true => simp [RedisConn.rset, hf] at h
        | false =>
            rw [show c.rset "optimus:alias_default" (al.getD "") =
                Except.ok { c with kv := dictSet c.kv "optimus:alias_default" (al.getD "") }
              from by simp [RedisConn.rset, hf]] at h
            simp only [Except.ok.injEq] at h
            subst h
            simp [aliasData, hr]
      · rw [if_neg hT] at h
        cases hf : c.failing with
        | true => simp [RedisConn.rdel, hf] at h
        | false =>
            rw [show c.rdel "optimus:alias_default" =
                Except.ok { c with kv := dictPop c.kv "optimus:alias_default" }
              from by simp [RedisConn.rdel, hf]] at h
            simp only [Except.ok.injEq] at h
            subst h
            simp [aliasData, hr]

/-- The alias map as the freshly registered alias sees it: registering
`al ↦ url` makes the lowercased alias resolve to `url`. -/
theorem list_aliases_after_register (s : AliasStore) (al url : String) (d : Bool)
    (s' : AliasStore) (hwf : storeWF s = true)
    (h : s.register_alias al url d = .ok s') :
    dictGet s'.list_aliases (pyLower al) = some url := by
  unfold AliasStore.register_alias at h
  cases hr : s.r with
  | none =>
      simp only [hr] at h
      by_cases hd : d = true
      · rw [if_pos hd] at h
        rw [list_aliases_eq_of_aliasData _ _ (set_default_alias_preserves_aliasData _ _ _ h)]
        simp [AliasStore.list_aliases, dictGet_dictSet_self]
      · rw [if_neg hd] at h
        simp only [Except.ok.injEq] at h
        subst h
        simp [AliasStore.list_aliases, dictGet_dictSet_self]
  | some c =>
      simp only [hr] at h
      cases hf : c.failing with
      | true => simp [RedisConn.rhset, hf] at h
      | false =>
          rw [show c.rhset (pyLower al) url =
              Except.ok { c with hashes := dictSet c.hashes (pyLower al) url }
            from by simp [RedisConn.rhset, hf]] at h
          dsimp only at h
          have hnodup : dictNodup (dictSet c.hashes (pyLower al) url) = true := by
            have hh : dictNodup c.hashes = true := by
              have hwf' := hwf
              unfold storeWF at hwf'
              rw [hr] at hwf'
              simp only [Bool.and_eq_true] at hwf'
              exact hwf'.2.2
            exact dictNodup_dictSet _ _ _ hh
          have hkey : ∀ s'' : AliasStore,
              aliasData s'' =
                (dictSet s.mem (pyLower al) url,
                  some (dictSet c.hashes (pyLower al) url, false)) →
              dictGet s''.list_aliases (pyLower al) = some url := by
            intro s'' hdat
            have hmem : s''.mem = dictSet s.mem (pyLower al) url :=
              congrArg Prod.fst hdat
            have hrr : s''.r.map (fun c => (c.hashes, c.failing)) =
                some (dictSet c.hashes (pyLower al) url, false) :=
              congrArg Prod.snd hdat
            cases hr'' : s''.r with
            | none => rw [hr''] at hrr; cases hrr
            | some c'' =>
                rw [hr''] at hrr
                simp only [Option.map_some', Option.some.injEq, Prod.mk.injEq] at hrr
                unfold AliasStore.list_aliases
                rw [hr'']
                simp only [RedisConn.rhgetall, hrr.1, hrr.2, Bool.false_eq_true, if_false]
                rw [dictGet_dictUpdate _ _ _ hnodup]
                simp [dictGet_dictSet_self, hmem]
          by_cases hd : d = true
          · rw [if_pos hd] at h
            refine hkey _ ((set_default_alias_preserves_aliasData _ _ _ h).trans ?_)
            simp [aliasData, hr, hf]
          · rw [if_neg hd] at h
            simp only [Except.ok.injEq] at h
            subst h
            exact hkey _ (by simp [aliasData, hr, hf])

/-- C8: registering an alias makes every letter-case variant of it
resolve to the registered URL (aliases are lowercased on write and on
lookup), and resolution of a hint depends only on its lowercase form
(`resolve("FOO") = resolve("foo")`). -/
theorem c8_alias_case_insensitive :
    (∀ (s : AliasStore) (al url : String) (d : Bool) (s' : AliasStore) (v : String),
        storeWF s = true → s.register_alias al url d = .ok s' →
        v ≠ "" → pyLower v = pyLower al →
        s'.resolve (some v) = .ok (some url))
    ∧ ∀ (s : AliasStore) (h₁ h₂ : String),
        h₁ ≠ "" → h₂ ≠ "" → pyLower h₁ = pyLower h₂ →
        s.resolve (some h₁) = s.resolve (some h₂) := by
  constructor
  · intro s al url d s' v hwf hreg hv hlow
    have hhit := list_aliases_after_register s al url d s' hwf hreg
    unfold AliasStore.resolve
    rw [if_pos (by simp [pyTruthyS, hv])]
    simp only [Option.getD_some, hlow, hhit]
  · intro s h₁ h₂ hn₁ hn₂ hlow
    unfold AliasStore.resolve
    rw [if_pos (by simp [pyTruthyS, hn₁]), if_pos (by simp [pyTruthyS, hn₂])]
    simp only [Option.getD_some, hlow]

theorem c8_witness :
    storeWF c8store = true ∧
      c8store.register_alias "FoO" "http://a" true =
        .ok ⟨[("foo", "http://a")], some "foo", none,
          some ⟨[("optimus:alias_default", "foo")],
            [("bar", "http://old"), ("foo", "http://a")], false⟩⟩ ∧
      AliasStore.resolve
        ⟨[("foo", "http://a")], some "foo", none,
          some ⟨[("optimus:alias_default", "foo")],
            [("bar", "http://old"), ("foo", "http://a")], false⟩⟩ (some "FOO") =
        .ok (some "http://a") ∧
      c8store.resolve (some "FOO") = c8store.resolve (some "foo") :=
  ⟨rfl, rfl,
    c8_alias_case_insensitive.1 c8store "FoO" "http://a" true _ "FOO" rfl rfl
      (by decide) rfl,
    c8_alias_case_insensitive.2 c8store "FOO" "foo" (by decide) (by decide) rfl⟩

/-- C3 counterexample: with an unreachable durable store, `get_target`
(and likewise `delete_alias`) surfaces the storage error to its caller
instead of degrading to memory-only semantics, refuting the claim that
no AliasStore operation ever surfaces a storage error. -/
theorem c3_counterexample :
    c3store.get_target = .error StorageErr.unreachable ∧
      c3store.delete_alias "foo" = .error StorageErr.unreachable :=
  ⟨rfl, rfl⟩

/-- C3 (amended): only `list_aliases` swallows durable-storage failures
(degrading to the in-memory map); `set_target`, `get_target`,
`register_alias`, `set_default_alias`, `get_default_alias` and
`delete_alias` all propagate the storage error to their caller. -/
theorem c3_storage_errors_propagate (s : AliasStore) (c : RedisConn)
    (hr : s.r = some c) (hf : c.failing = true) :
    s.list_aliases = s.mem ∧
      (∀ url, s.set_target url = .error .unreachable) ∧
      s.get_target = .error .unreachable ∧
      (∀ al url d, s.register_alias al url d = .error .unreachable) ∧
      (∀ al, s.set_default_alias al = .error .unreachable) ∧
      s.get_default_alias = .error .unreachable ∧
      (∀ al, s.delete_alias al = .error .unreachable) := by
  refine ⟨?_, ?_, ?_, ?_, ?_, ?_, ?_⟩
  · simp [AliasStore.list_aliases, hr, RedisConn.rhgetall, hf]
  · intro url
    simp [AliasStore.set_target, hr, RedisConn.rset, hf]
  · simp [AliasStore.get_target, hr, RedisConn.rget, hf]
  · intro al url d
    simp [AliasStore.register_alias, hr, RedisConn.rhset, hf]
  · intro al
    unfold AliasStore.set_default_alias
    simp only [hr]
    by_cases hT : pyTruthyS al = true
    · rw [if_pos hT]
      simp [RedisConn.rset, hf]
    · rw [if_neg hT]
      simp [RedisConn.rdel, hf]
  · simp [AliasStore.get_default_alias, hr, RedisConn.rget, hf]
  · intro al
    simp [AliasStore.delete_alias, hr, RedisConn.rhdel, hf]

theorem c3_witness :
    c3store.list_aliases = [("foo", "http://a")] ∧
      c3store.set_target "http://new" = .error .unreachable ∧
      c3store.get_target = .error .unreachable ∧
      c3store.register_alias "Bar" "http://b" true = .error .unreachable ∧
      c3store.set_default_alias (some "bar") = .error .unreachable ∧
      c3store.get_default_alias = .error .unreachable ∧
      c3store.delete_alias "Bar" = .error .unreachable :=
  have h := c3_storage_errors_propagate c3store ⟨[], [], true⟩ rfl rfl
  ⟨h.1.trans rfl, h.2.1 "http://new", h.2.2.1, h.2.2.2.1 "Bar" "http://b" true,
    h.2.2.2.2.1 (some "bar"), h.2.2.2.2.2.1, h.2.2.2.2.2.2 "Bar"⟩

/-- C4 counterexample: the default alias is the string `"FOO"` (stored
verbatim by `set_default_alias`, which does not lowercase), and
`delete_alias "FOO"` is called on that very alias; yet afterwards
`get_default_alias` still returns `some "FOO"`, not absent, because the
code compares the stored default against the lowercased input. -/
theorem c4_counterexample :
    c4store.get_default_alias = .ok (some "FOO") ∧
      c4store.delete_alias "FOO" = .ok ⟨[], some "FOO", none, none⟩ ∧
      AliasStore.get_default_alias ⟨[], some "FOO", none, none⟩ = .ok (some "FOO") ∧
      (some "FOO" : Option String) ≠ none :=
  ⟨rfl, rfl, rfl, by decide⟩

/-- C4 (amended): on a reachable store, `delete_alias` clears the
default exactly when the stored default string equals the lowercase of
the deleted alias; a default stored in non-lowercase form is left
untouched even when it matches the deleted alias case-insensitively. -/
theorem c4_delete_clears_default_iff_exact (s : AliasStore) (al : String)
    (h : storeOk s = true) :
    ∃ s', s.delete_alias al = .ok s' ∧
      (defaultAliasView s = some (pyLower al) → defaultAliasView s' = none) ∧
      (defaultAliasView s ≠ some (pyLower al) → defaultAliasView s' = defaultAliasView s) := by
  unfold AliasStore.delete_alias
  cases hr : s.r with
  | none =>
      simp only [hr]
      rw [show AliasStore.get_default_alias
            { s with mem := dictPop s.mem (pyLower al), r := none } =
          Except.ok s._default from by simp [AliasStore.get_default_alias]]
      dsimp only
      by_cases hda : s._default = some (pyLower al)
      · rw [if_pos (by simp [hda])]
        rw [show AliasStore.set_default_alias
              { s with mem := dictPop s.mem (pyLower al), r := none } none =
            Except.ok ⟨dictPop s.mem (pyLower al), none, s.target_legacy, none⟩ from by
          simp [AliasStore.set_default_alias]]
        refine ⟨_, rfl, fun _ => ?_, fun hne => absurd ?_ hne⟩
        · simp [defaultAliasView]
        · simpa [defaultAliasView, hr] using hda
      · rw [if_neg (by simp [hda])]
        refine ⟨_, rfl, fun heq => ?_, fun _ => ?_⟩
        · exact absurd (by simpa [defaultAliasView, hr] using heq) hda
        · simp [defaultAliasView, hr]
  | some c =>
      have hf : c.failing = false := by
        simpa [storeOk, hr] using h
      simp only [hr]
      rw [show c.rhdel (pyLower al) =
          Except.ok { c with hashes := dictPop c.hashes (pyLower al) } from by
        simp [RedisConn.rhdel, hf]]
      dsimp only
      rw [show AliasStore.get_default_alias
            ⟨dictPop s.mem (pyLower al), s._default, s.target_legacy,
              some ⟨c.kv, dictPop c.hashes (pyLower al), c.failing⟩⟩ =
          Except.ok (defaultAliasView s) from by
        simp only [AliasStore.get_default_alias, RedisConn.rget, hf, defaultAliasView,
          hr, Bool.false_eq_true, if_false]
        split <;> rfl]
      dsimp only
      by_cases hda : defaultAliasView s = some (pyLower al)
      · rw [if_pos (by simp [hda])]
        rw [show AliasStore.set_default_alias
              ⟨dictPop s.mem (pyLower al), s._default, s.target_legacy,
                some ⟨c.kv, dictPop c.hashes (pyLower al), c.failing⟩⟩ none =
            Except.ok ⟨dictPop s.mem (pyLower al), none, s.target_legacy,
              some ⟨dictPop c.kv "optimus:alias_default",
                dictPop c.hashes (pyLower al), c.failing⟩⟩ from by
          simp [AliasStore.set_default_alias, RedisConn.rdel, pyTruthyS, hf]]
        refine ⟨_, rfl, fun _ => ?_, fun hne => absurd hda hne⟩
        simp [defaultAliasView, dictGet_dictPop_self, pyTruthyS]
      · rw [if_neg (by simp [hda])]
        refine ⟨_, rfl, fun heq => absurd heq hda, fun _ => ?_⟩
        simp [defaultAliasView, hr]

theorem c4_witness :
    storeOk c4wstore = true ∧
      ∃ s', c4wstore.delete_alias "FOO" = .ok s' ∧
        (defaultAliasView c4wstore = some (pyLower "FOO") → defaultAliasView s' = none) ∧
        (defaultAliasView c4wstore ≠ some (pyLower "FOO") →
          defaultAliasView s' = defaultAliasView c4wstore) :=
  ⟨rfl, c4_delete_clears_default_iff_exact c4wstore "FOO" rfl⟩

/-- C1 counterexample: for the inbound body `"\x7b"` (a lone opening
brace — malformed JSON), the forwarder's single outbound call carries
no body at all (`get_json(silent=True)` yields `None` and
`requests.post(json=None)` attaches nothing), so the upstream-seen body
is not byte-identical to the inbound body. -/
theorem c1_counterexample :
    (proxy_webhook c1cfg c1store c1net c1req).map
        (fun o => o.outboundCalls.map sentBody) = .ok [none] ∧
      c1req.rawBody = "\x7b" ∧ (none : Option String) ≠ some c1req.rawBody :=
  ⟨rfl, rfl, by decide⟩

/-- C1 (amended): the forwarder does not forward the body
byte-for-byte; it re-parses the inbound body with
`get_json(silent=True)` and re-serializes the resulting Python value —
the upstream-seen body of the single outbound call is `json.dumps` of
that value, and no body at all is sent whenever `get_json` returns
`None`: when the body does not parse, when the request does not
advertise a JSON content type, and also when the body is the JSON
literal `null` (parsed to Python `None`, indistinguishable from a
parse failure). -/
theorem c1_body_reserialized (cfg : ProxyConfig) (s : AliasStore)
    (upstream : OutboundRequest → UpstreamResult) (req : HttpRequest) (t : String)
    (hm : req.method ≠ "OPTIONS")
    (hauth : cfg.PUBLIC_API_KEY = "" ∨
      headerGet req.headers "x-client-key" = some cfg.PUBLIC_API_KEY)
    (hres : s.resolve (headerGet req.headers "x-optimus-alias") = .ok (some t))
    (ht : t ≠ "") :
    (proxy_webhook cfg s upstream req).map (fun o => o.outboundCalls.map sentBody) =
      .ok [(pyGetJsonSilent (headerGet req.headers "Content-Type") req.rawBody).map pyDumps] := by
  have hcond : ¬ (cfg.PUBLIC_API_KEY ≠ "" ∧
      headerGet req.headers "x-client-key" ≠ some cfg.PUBLIC_API_KEY) := by
    rcases hauth with h | h
    · exact fun hc => hc.1 h
    · exact fun hc => hc.2 h
  unfold proxy_webhook
  rw [if_neg hm, if_neg hcond, hres]
  dsimp only
  rw [if_neg (by simp [pyTruthyS, ht])]
  split <;> simp [Except.map, sentBody]

theorem c1_witness :
    c1store.resolve (headerGet c1wreq.headers "x-optimus-alias") = .ok (some "http://up") ∧
      (proxy_webhook c1cfg c1store c1net c1wreq).map
        (fun o => o.outboundCalls.map sentBody) = .ok [some "\x7b\"a\": 1\x7d"] ∧
      c1nullreq.rawBody = "null" ∧
      (proxy_webhook c1cfg c1store c1net c1nullreq).map
        (fun o => o.outboundCalls.map sentBody) = .ok [none] :=
  ⟨rfl,
    (c1_body_reserialized c1cfg c1store c1net c1wreq "http://up"
        (by decide) (Or.inl rfl) rfl (by decide)).trans rfl,
    rfl,
    (c1_body_reserialized c1cfg c1store c1net c1nullreq "http://up"
        (by decide) (Or.inl rfl) rfl (by decide)).trans rfl⟩

/-- C9 counterexample: the inbound request carries
`Content-Type: text/plain`, yet the outbound request's Content-Type
header is `application/json` — the forwarder hardcodes it rather than
forwarding the inbound value. -/
theorem c9_counterexample :
    headerGet c9req.headers "Content-Type" = some "text/plain" ∧
      (proxy_webhook c9cfg c9store c9net c9req).map
        (fun o => o.outboundCalls.map (fun ob => dictGet ob.headers "Content-Type")) =
        .ok [some "application/json"] ∧
      ("application/json" : String) ≠ "text/plain" :=
  ⟨rfl, rfl, by decide⟩

/-- C9 (amended): the outbound request's Content-Type header is always
exactly `application/json`, regardless of the inbound request's
Content-Type (present or not). -/
theorem c9_content_type_always_json (cfg : ProxyConfig) (s : AliasStore)
    (upstream : OutboundRequest → UpstreamResult) (req : HttpRequest) (t : String)
    (hm : req.method ≠ "OPTIONS")
    (hauth : cfg.PUBLIC_API_KEY = "" ∨
      headerGet req.headers "x-client-key" = some cfg.PUBLIC_API_KEY)
    (hres : s.resolve (headerGet req.headers "x-optimus-alias") = .ok (some t))
    (ht : t ≠ "") :
    (proxy_webhook cfg s upstream req).map
        (fun o => o.outboundCalls.map (fun ob => dictGet ob.headers "Content-Type")) =
      .ok [some "application/json"] := by
  have hcond : ¬ (cfg.PUBLIC_API_KEY ≠ "" ∧
      headerGet req.headers "x-client-key" ≠ some cfg.PUBLIC_API_KEY) := by
    rcases hauth with h | h
    · exact fun hc => hc.1 h
    · exact fun hc => hc.2 h
  unfold proxy_webhook
  rw [if_neg hm, if_neg hcond, hres]
  dsimp only
  rw [if_neg (by simp [pyTruthyS, ht])]
  by_cases hmod : pyTruthyS (headerGet req.headers "x-optimus-model") = true
  · rw [if_pos hmod]
    split <;>
      simp [Except.map,
        dictGet_dictSet_ne _ _ _ _
          (show ("x-optimus-model" : String) ≠ "Content-Type" by decide),
        dictGet]
  · rw [if_neg hmod]
    split <;> simp [Except.map, dictGet]

theorem c9_witness :
    c9store.resolve (headerGet c9wreq.headers "x-optimus-alias") = .ok (some "http://up") ∧
      (proxy_webhook c9cfg c9store c9net c9wreq).map
        (fun o => o.outboundCalls.map (fun ob => dictGet ob.headers "Content-Type")) =
        .ok [some "application/json"] :=
  ⟨rfl,
    c9_content_type_always_json c9cfg c9store c9net c9wreq "http://up"
      (by decide) (Or.inl rfl) rfl (by decide)⟩

end OptimusProxy
